import Mathlib

/-!
Shallow embedding of the remote-shell server and client (Go sources:
server/server.go, client/client.go, and the unnamed server variant) for
checking the specification's claims.  Machinery external to the repository
(the POSIX shell, Go channel close semantics, the scheduler's interleaving
of the output-copy goroutine) is modelled explicitly where a claim depends
on it, with the modelling assumptions stated in the doc comments.
-/

/- ## Wire-protocol constants (server.go 138-139, 152-153, 192) -/

/-- Marker line written after an error line (server.go 139). -/
def eofMarkerLine : String := "EOF\n"

/-- Bytes written by executeCommand after a successful Wait (server.go 192):
a newline followed by the marker line. -/
def successTrailer : String := "\nEOF\n"

/-- Notice written by handleTimeout before the terminate marker
(server.go 152, via fmt.Fprintln). -/
def timeoutNotice : String := "Client session duration exceeded. Disconnecting...\n"

/-- Terminate marker written by handleTimeout (server.go 153). -/
def terminateMarker : String := "TERMINATE\n"

/- ## Command Executor (server.go 157-195) -/

/-- The argv handed to the operating system by executeCommand
(server.go 165): the fixed ulimit wrapper script, the operand "--", and
the raw command text passed through verbatim as the next operand. -/
def executeCommandArgv (command : String) : List String :=
  ["sh", "-c", "ulimit -t 5; exec \"$@\"", "--", command]

/-- Modelled from POSIX sh semantics for the fixed wrapper script above:
in sh -c SCRIPT NAME ARG..., NAME (here "--") is bound to the parameter 0
and each following operand becomes one positional parameter, so the raw
command text is the single positional parameter; a quoted "$@" expands
each positional parameter to exactly one field, so exec "$@" replaces the
shell with an argument vector equal to the positional-parameter list: the
whole command text as ONE word, looked up as a program name, never
word-split or otherwise parsed as a shell command line. -/
def wrapperChildArgv (command : String) : List String := [command]

/-- Accumulator-style splitter over characters used by specShellWords:
maximal nonempty runs of non-space characters, in order. -/
def shellWordsAux : List Char → List Char → List String
  | [], [] => []
  | [], acc => [String.mk acc.reverse]
  | c :: cs, acc =>
    if c = ' ' then
      if acc = [] then shellWordsAux cs []
      else String.mk acc.reverse :: shellWordsAux cs []
    else shellWordsAux cs (c :: acc)

/-- Modelled from the spec's words ("the shell parses and runs the text
exactly as a shell command line"), for the simple case of a blank-separated
command with no quoting and no shell metacharacters: the shell would split
the line into words and run the first word as the program with the
remaining words as its arguments. -/
def specShellWords (s : String) : List String := shellWordsAux s.data []

/-- Exit condition of the spawned wrapper, as observed by Wait. -/
inductive ExitStatus
  | success
  | failure (statusText : String)
  deriving DecidableEq

/-- Behaviour of the spawned subprocess, the part of one invocation that is
external to the program: either the wrapper starts and runs to an exit
(with the stdout bytes its pipe delivers), or Start itself fails. -/
inductive ProcBehavior
  | runs (stdoutBytes : String) (status : ExitStatus)
  | startFails (errText : String)
  deriving DecidableEq

/-- Sink bytes written during executeCommand itself, in program order with
the output copy completing before the post-Wait writes (the unjoined-copy
race is modelled separately below), paired with the error detail returned
to the caller (none = nil).  On exit 0 the copy output is followed by the
successTrailer and nil is returned (server.go 185-194); on a non-zero exit
Wait yields an ExitError and executeCommand returns the fmt.Errorf-wrapped
detail before the trailer write is reached (server.go 185-189); on a Start
failure nothing was written and the error is returned (server.go 168-175). -/
def executeCommandResult : ProcBehavior → String × Option String
  | ProcBehavior.startFails e => ("", some e)
  | ProcBehavior.runs out ExitStatus.success => (out ++ successTrailer, none)
  | ProcBehavior.runs out (ExitStatus.failure t) =>
      (out, some ("Command exited with status: " ++ t))

/-- Bytes the session handler writes for one executed command line:
executeCommand's own writes, then, exactly when executeCommand returned a
non-nil error, the error line and the EOF marker line written by
handleConnection (server.go 136-140). -/
def invocationWrites (p : ProcBehavior) : String :=
  match executeCommandResult p with
  | (out, none) => out
  | (out, some e) => out ++ ("Error executing command:" ++ e ++ "\n") ++ eofMarkerLine

/- ## Session Handler (server.go 112-155) -/

/-- Which case of the handler's select fired for one received line
(server.go 120-127): the shutdown case, the context-deadline case, or the
default case that goes on to process the command. -/
inductive Obs
  | shutdownCase
  | timeoutCase
  | defaultCase
  deriving DecidableEq

/-- One iteration of the handler loop: scanner.Scan returned true with
this line; the two readiness flags record whether the shutdown channel was
closed and whether the 100-second context deadline had expired when the
select ran, and obs records the case the select took.  proc is the
behaviour the subprocess would have if the line is executed. -/
structure ScanEvent where
  line : String
  shutdownReady : Bool
  timeoutReady : Bool
  obs : Obs
  proc : ProcBehavior
  deriving DecidableEq

/-- Go select semantics: a case can fire only if it is ready, and the
default case fires only when no other case is ready. -/
def validEvent (e : ScanEvent) : Bool :=
  match e.obs with
  | Obs.shutdownCase => e.shutdownReady
  | Obs.timeoutCase => e.timeoutReady
  | Obs.defaultCase => !e.shutdownReady && !e.timeoutReady

/-- Whether the handler has returned (running its deferred conn.Close) or
is still blocked inside scanner.Scan waiting for the next line. -/
inductive HandlerEnd
  | returned
  | stillReading
  deriving DecidableEq

/-- The handler loop of handleConnection (server.go 118-149) over the
iterations that occur: for each line scanner.Scan delivers, the select
either observes shutdown (return, no writes), observes the expired
deadline (write the notice and terminate marker via handleTimeout, then
return), or takes the default case: the exit keyword returns without
writes, any other line is executed and its invocation bytes written,
after which the loop re-enters Scan.  streamEnded tells whether, after
the given iterations, Scan returned false (end of stream or read error:
the loop exits and the handler returns) or no further line ever arrives
(the handler stays blocked in Scan).  Result: the bytes written to the
connection, and whether the handler returned. -/
def runHandler : List ScanEvent → Bool → String × HandlerEnd
  | [], streamEnded =>
      ("", if streamEnded then HandlerEnd.returned else HandlerEnd.stillReading)
  | e :: rest, streamEnded =>
      if e.obs = Obs.shutdownCase then ("", HandlerEnd.returned)
      else if e.obs = Obs.timeoutCase then
        (timeoutNotice ++ terminateMarker, HandlerEnd.returned)
      else if e.line = "exit" then ("", HandlerEnd.returned)
      else
        let r := runHandler rest streamEnded
        (invocationWrites e.proc ++ r.1, r.2)

/-- Concatenated invocation writes of a list of executed lines. -/
def writesOf : List ScanEvent → String
  | [] => ""
  | e :: rest => invocationWrites e.proc ++ writesOf rest

/-- One session: the handler iterations that occur, whether the input
stream ended after them, and whether the 100-second lifetime deadline
elapsed at some point during the session's life. -/
structure Session where
  events : List ScanEvent
  streamEnded : Bool
  deadlineElapsed : Bool
  deriving DecidableEq

/-- A session is well formed when every select observation is possible
under Go semantics and the deadline case was ready only if the deadline
had indeed elapsed. -/
def validSession (s : Session) : Bool :=
  s.events.all validEvent &&
    s.events.all (fun e => !e.timeoutReady || s.deadlineElapsed)

/- ## Output-copy race inside executeCommand (server.go 177-194)

The copy of the subprocess stdout to the connection runs in its own
goroutine; the parent goroutine only waits for the process to exit
(ulimitCmd.Wait) and then writes the trailer — it never joins the copy
goroutine.  The events of one successful invocation and the ordering the
code does guarantee are modelled below; a trace is any linearisation of
the guaranteed order. -/

/-- An observable event of one invocation: the copy goroutine writing its
i-th chunk of subprocess stdout to the connection, Wait returning in the
parent goroutine, or the parent writing the trailer. -/
inductive ExecEvent
  | copyChunk (i : Nat)
  | waitReturns
  | markerWrite
  deriving DecidableEq

/-- Happens-before edges the code establishes: chunk writes are ordered
within the single copy goroutine (server.go 177-183), and the trailer
write follows Wait in the parent (server.go 185-192).  No edge orders the
copy goroutine relative to Wait or the trailer write: the goroutine is
never joined, and Wait only waits for process exit. -/
def execHb : ExecEvent → ExecEvent → Bool
  | ExecEvent.copyChunk i, ExecEvent.copyChunk j => Nat.blt i j
  | ExecEvent.waitReturns, ExecEvent.markerWrite => true
  | _, _ => false

/-- The full event set of a successful invocation whose stdout is copied
in n chunks. -/
def execEvents (n : Nat) : List ExecEvent :=
  (List.range n).map ExecEvent.copyChunk ++ [ExecEvent.waitReturns, ExecEvent.markerWrite]

/-- t and u hold exactly the same events (same length and, for each event
of u, the same multiplicity). -/
def sameEvents (t u : List ExecEvent) : Bool :=
  t.length = u.length && u.all (fun e => t.count e = u.count e)

/-- No event of the trace is preceded by an event it happens-before. -/
def respectsHb : List ExecEvent → Bool
  | [] => true
  | e :: rest => rest.all (fun f => !execHb f e) && respectsHb rest

/-- A possible wire-level ordering of one n-chunk successful invocation:
a linearisation of the guaranteed happens-before order. -/
def validTrace (n : Nat) (t : List ExecEvent) : Bool :=
  sameEvents t (execEvents n) && respectsHb t

/-- True when some stdout chunk is written after the trailer in the trace. -/
def chunkAfterMarker : List ExecEvent → Bool
  | [] => false
  | ExecEvent.markerWrite :: rest =>
      rest.any (fun e => match e with | ExecEvent.copyChunk _ => true | _ => false)
  | _ :: rest => chunkAfterMarker rest

/- ## Service Controller (server.go 30-35, 197-220) -/

/-- The process-wide service state the claims mention: the two resources
Stop mutates, and the active sessions (whose connections are owned by
their handlers, not by the service). -/
structure Service where
  shutdownClosed : Bool
  listenerClosed : Bool
  sessions : List Session
  deriving DecidableEq

/-- Effect of Stop (server.go 203-220) on the service state: it closes the
shutdown channel and the listener.  Session handlers are not in the
WaitGroup (only the two loops are, server.go 198) and their connections
are closed only by their own deferred Close, so Stop leaves the sessions
untouched. -/
def stopService (s : Service) : Service :=
  { s with shutdownClosed := true, listenerClosed := true }

/-- The grace deadline of Stop, in seconds (time.After(time.Second),
server.go 216). -/
def graceSeconds : Nat := 1

/-- Time at which Stop returns, in seconds after its call: when the
WaitGroup drain finishes or when the grace deadline fires, whichever is
first (the select at server.go 213-219). -/
def stopReturnTime (wgDoneTime : Nat) : Nat := min wgDoneTime graceSeconds

/-- The AcceptConnections loop (server.go 81-97) over a fuel bound on its
iterations: each iteration polls the shutdown channel (select with a
default case) and returns once it is closed; otherwise Accept either
fails (closed listener: the error is swallowed and the loop retries) or
yields the next incoming connection, which is handed off.  Connections
are numbered; the result is the list handed off. -/
def acceptLoop : Bool → Bool → List Nat → Nat → List Nat
  | _, _, _, 0 => []
  | sdClosed, lClosed, incoming, fuel + 1 =>
      if sdClosed then []
      else if lClosed then acceptLoop sdClosed lClosed incoming fuel
      else
        match incoming with
        | [] => acceptLoop sdClosed lClosed incoming fuel
        | c :: rest => c :: acceptLoop sdClosed lClosed rest fuel

/- ## Shutdown broadcast channel (server.go 33, 53, 204) -/

/-- State of the Go channel used as the shutdown broadcast. -/
inductive ChanState
  | opened
  | closedSt
  deriving DecidableEq

/-- Go channel close semantics: closing an open channel closes it;
closing an already-closed channel panics (a run-time fault). -/
def closeChan : ChanState → Except String ChanState
  | ChanState.opened => Except.ok ChanState.closedSt
  | ChanState.closedSt => Except.error "close of closed channel"

/-- The broadcast step Stop performs (server.go 204): a bare
close(s.shutdown) with no once-guard around it. -/
def stopBroadcast : ChanState → Except String ChanState := closeChan

/- ## Server startup (server.go 222-245) -/

/-- The server process state that main's startup sequence touches. -/
structure ServerProcState where
  loopsStarted : Bool
  cwd : String
  deriving DecidableEq

/-- main's startup sequence after NewServer succeeds (server.go 230-236):
server.Start() launches the accept and dispatch loops, and immediately
afterwards the working directory is changed to the root "/"; if Chdir
fails, log.Fatalf aborts the process.  chdirFails tells whether the
os.Chdir call fails. -/
def serverStartup (cwd0 : String) (chdirFails : Bool) : Except String ServerProcState :=
  let started : ServerProcState := { loopsStarted := true, cwd := cwd0 }
  if chdirFails then Except.error "Error changing working directory"
  else Except.ok { started with cwd := "/" }

/-- Working directory a command invocation executes in: exec.Command
inherits the process working directory (no Dir is set on the command,
server.go 157-166). -/
def invocationCwd (st : ServerProcState) : String := st.cwd

/- ## Client (client.go) -/

/-- The tls.Config built by the success path of the client's
LoadCertificates (client.go 46-67): the client certificate and key are
loaded, the CA file is read into a pool set as RootCAs, and
InsecureSkipVerify is set to true. -/
structure ClientTLSConfig where
  certificatesLoaded : Bool
  rootCAsLoaded : Bool
  insecureSkipVerify : Bool
  deriving DecidableEq

/-- The configuration value client.go's LoadCertificates returns on
success (client.go 62-66). -/
def clientLoadCertificates : ClientTLSConfig :=
  { certificatesLoaded := true, rootCAsLoaded := true, insecureSkipVerify := true }

/-- How the client's response reader ends one ReceiveResponse call. -/
inductive RecvEnd
  | eofMarkerSeen
  | exitWithStatus (code : Nat)
  | streamClosed
  deriving DecidableEq

/-- The client's ReceiveResponse loop (client.go 87-111) over the complete
newline-terminated lines the reader delivers before the stream ends: a
line exactly equal to "EOF\n" breaks the loop; a line exactly equal to
"TERMINATE\n" calls os.Exit(9); every other line is printed.  Result: the
lines printed, and how the call ended. -/
def ReceiveResponse : List String → List String × RecvEnd
  | [] => ([], RecvEnd.streamClosed)
  | l :: rest =>
      if l = eofMarkerLine then ([], RecvEnd.eofMarkerSeen)
      else if l = terminateMarker then ([], RecvEnd.exitWithStatus 9)
      else
        let r := ReceiveResponse rest
        (l :: r.1, r.2)

/- ## Named inputs used by the claim theorems -/

/-- The session of a client that idles past the 100-second deadline and
never sends another line: no handler iteration occurs, the stream does not
end, and the deadline elapses while the handler is blocked in Scan. -/
def idleTimedOutSession : Session :=
  { events := [], streamEnded := false, deadlineElapsed := true }

/-- A handler iteration at which the select took the expired-deadline case. -/
def timeoutScanEvent : ScanEvent :=
  ⟨"", false, true, Obs.timeoutCase, ProcBehavior.runs "" ExitStatus.success⟩

/-- A session whose handler is blocked in Scan with nothing pending. -/
def blockedSession : Session :=
  { events := [], streamEnded := false, deadlineElapsed := false }

/-- A running service with one such blocked session. -/
def serviceWithBlocked : Service :=
  { shutdownClosed := false, listenerClosed := false, sessions := [blockedSession] }

/-- A linearisation of a one-chunk successful invocation in which the
trailer overtakes the stdout chunk: Wait returns, the trailer is written,
and only then does the copy goroutine write the chunk. -/
def raceTrace : List ExecEvent :=
  [ExecEvent.waitReturns, ExecEvent.markerWrite, ExecEvent.copyChunk 0]

/- ## Claim theorems -/

/-- C1: the command text is NOT interpreted by the shell as a shell
command line.  The server does pass the text through verbatim with no
validation or quoting (first conjunct), but the wrapper execs it as a
single program-name word, so for the input "echo hello" the resulting
argument vector is the one-element list ["echo hello"], not the
shell-command-line interpretation ["echo", "hello"]. -/
theorem c1_command_text_not_shell_parsed :
    executeCommandArgv "echo hello"
      = ["sh", "-c", "ulimit -t 5; exec \"$@\"", "--", "echo hello"]
    ∧ wrapperChildArgv "echo hello" = ["echo hello"]
    ∧ specShellWords "echo hello" = ["echo", "hello"]
    ∧ wrapperChildArgv "echo hello" ≠ specShellWords "echo hello" := by
  exact ⟨rfl, rfl, by decide, by decide⟩

/-- C2 counterexample: for a command that exits 0 with stdout "hello\n",
the bytes executeCommand writes are "hello\n\nEOF\n" — an extra newline is
inserted before the marker line, so the stream is not stdout followed
directly by "EOF\n"; moreover the scenario input "echo hello" is not run
as the shell command line echo hello at all. -/
theorem c2_counterexample :
    executeCommandResult (ProcBehavior.runs "hello\n" ExitStatus.success)
      = ("hello\n\nEOF\n", none)
    ∧ ("hello\n\nEOF\n" : String) ≠ "hello\n" ++ eofMarkerLine
    ∧ wrapperChildArgv "echo hello" ≠ specShellWords "echo hello" := by
  exact ⟨by decide, by decide, by decide⟩

/-- C2 amended: for every command whose process exits 0, the handler
writes exactly the command's stdout bytes followed by the trailer
"\nEOF\n" (a newline then the marker line) and no error line, after which
it continues with the rest of the session. -/
theorem c2_success_invocation_bytes (line out : String) (rest : List ScanEvent)
    (streamEnded : Bool) (hline : line ≠ "exit") :
    runHandler (⟨line, false, false, Obs.defaultCase,
        ProcBehavior.runs out ExitStatus.success⟩ :: rest) streamEnded
      = ((out ++ successTrailer) ++ (runHandler rest streamEnded).1,
         (runHandler rest streamEnded).2) := by
  simp [runHandler, hline, invocationWrites, executeCommandResult]

/-- Witness for c2_success_invocation_bytes at a concrete invocation. -/
theorem c2_success_invocation_bytes_witness :
    runHandler (⟨"ls", false, false, Obs.defaultCase,
        ProcBehavior.runs "hello\n" ExitStatus.success⟩ :: ([] : List ScanEvent)) false
      = (("hello\n" ++ successTrailer) ++ (runHandler ([] : List ScanEvent) false).1,
         (runHandler ([] : List ScanEvent) false).2) :=
  c2_success_invocation_bytes "ls" "hello\n" [] false (by decide)

/-- C3 counterexample: a session whose deadline elapses while the handler
is idle in Scan and whose client never sends another line is valid, yet
the handler writes nothing — no notice, no TERMINATE — and does not close
the connection: the handler does not race the read against the timer. -/
theorem c3_counterexample :
    validSession idleTimedOutSession = true
    ∧ idleTimedOutSession.deadlineElapsed = true
    ∧ runHandler idleTimedOutSession.events idleTimedOutSession.streamEnded
        = ("", HandlerEnd.stillReading) := by
  exact ⟨rfl, rfl, rfl⟩

/-- C3 amended: the expired deadline is observed only at a select point,
i.e. when a further line is received after the deadline elapsed; at such a
line (after any earlier normally executed lines) the handler writes the
notice followed by TERMINATE and returns, closing the connection. -/
theorem c3_timeout_observed_at_next_line (pre : List ScanEvent) (e : ScanEvent)
    (rest : List ScanEvent) (streamEnded : Bool)
    (hpre : ∀ p ∈ pre, p.obs = Obs.defaultCase ∧ p.line ≠ "exit")
    (he : e.obs = Obs.timeoutCase) :
    runHandler (pre ++ e :: rest) streamEnded
      = (writesOf pre ++ (timeoutNotice ++ terminateMarker), HandlerEnd.returned) := by
  induction pre with
  | nil =>
      simp [runHandler, he, writesOf, String.empty_append]
  | cons p pre ih =>
      have hp := hpre p (List.mem_cons_self p pre)
      have hrest : ∀ q ∈ pre, q.obs = Obs.defaultCase ∧ q.line ≠ "exit" :=
        fun q hq => hpre q (List.mem_cons_of_mem p hq)
      simp [runHandler, hp.1, hp.2, writesOf, ih hrest, String.append_assoc]

/-- Witness for c3_timeout_observed_at_next_line at a concrete session. -/
theorem c3_timeout_observed_at_next_line_witness :
    runHandler (([] : List ScanEvent) ++ timeoutScanEvent :: ([] : List ScanEvent)) false
      = (writesOf [] ++ (timeoutNotice ++ terminateMarker), HandlerEnd.returned) :=
  c3_timeout_observed_at_next_line [] timeoutScanEvent [] false (by simp) rfl

/-- C4: the tls.Config the client's LoadCertificates builds has
InsecureSkipVerify set to true, so server-certificate verification is
skipped on every connection the client establishes, despite the CA pool
being loaded into RootCAs. -/
theorem c4_client_verification_skipped :
    clientLoadCertificates.insecureSkipVerify = true
    ∧ clientLoadCertificates.rootCAsLoaded = true :=
  ⟨rfl, rfl⟩

/-- C5: for every command whose process exits non-zero (CPU-quota kills
included, surfacing as an ExitError status text), the handler writes any
copied stdout, then exactly one error line "Error executing command:"
followed by the wrapped exit detail, then the EOF marker line, and then
continues with the rest of the session rather than closing. -/
theorem c5_nonzero_exit_error_frame (line out statusText : String)
    (rest : List ScanEvent) (streamEnded : Bool) (hline : line ≠ "exit") :
    runHandler (⟨line, false, false, Obs.defaultCase,
        ProcBehavior.runs out (ExitStatus.failure statusText)⟩ :: rest) streamEnded
      = ((out ++ ("Error executing command:"
            ++ ("Command exited with status: " ++ statusText) ++ "\n") ++ eofMarkerLine)
          ++ (runHandler rest streamEnded).1,
         (runHandler rest streamEnded).2) := by
  simp [runHandler, hline, invocationWrites, executeCommandResult]

/-- Witness for c5_nonzero_exit_error_frame at the scenario input false
(exit status 1, empty stdout). -/
theorem c5_nonzero_exit_error_frame_witness :
    runHandler (⟨"false", false, false, Obs.defaultCase,
        ProcBehavior.runs "" (ExitStatus.failure "exit status 1")⟩ :: ([] : List ScanEvent)) false
      = ((("" : String) ++ ("Error executing command:"
            ++ ("Command exited with status: " ++ "exit status 1") ++ "\n") ++ eofMarkerLine)
          ++ (runHandler ([] : List ScanEvent) false).1,
         (runHandler ([] : List ScanEvent) false).2) :=
  c5_nonzero_exit_error_frame "false" "" "exit status 1" [] false (by decide)

/-- C6: the code orders the trailer write only after Wait, never after the
copy goroutine's chunk writes (the goroutine is not joined), so the
linearisation in which the trailer precedes a stdout chunk is a possible
trace of a successful invocation: the marker can be written before the
copy of stdout to the sink has completed. -/
theorem c6_marker_can_precede_copy :
    validTrace 1 raceTrace = true ∧ chunkAfterMarker raceTrace = true := by
  exact ⟨by decide, rfl⟩

/-- C7 counterexample: Stop leaves the session list untouched, and the
handler of a session blocked in Scan has neither completed its exchange
nor had its socket closed — it is still reading — even though Stop itself
has returned by the grace deadline. -/
theorem c7_counterexample :
    (stopService serviceWithBlocked).sessions = [blockedSession]
    ∧ runHandler blockedSession.events blockedSession.streamEnded
        = ("", HandlerEnd.stillReading)
    ∧ stopReturnTime 7 = graceSeconds := by
  exact ⟨rfl, rfl, by decide⟩

/-- C7 amended: once Stop is invoked the shutdown channel and listener are
closed, the accept loop hands off no further connection, and Stop returns
no later than the grace deadline even if the tracked loops are not done;
but Stop does not touch active sessions — their sockets are closed only by
their own handlers, which observe shutdown (and return, with no further
writes) at their next select point, i.e. only after another line arrives. -/
theorem c7_stop_contract (svc : Service) (wgDoneTime : Nat) (incoming : List Nat)
    (fuel : Nat) (line : String) (p : ProcBehavior) (rest : List ScanEvent) (ended : Bool) :
    (stopService svc).shutdownClosed = true
    ∧ (stopService svc).listenerClosed = true
    ∧ stopReturnTime wgDoneTime ≤ graceSeconds
    ∧ acceptLoop (stopService svc).shutdownClosed (stopService svc).listenerClosed
        incoming fuel = []
    ∧ (stopService svc).sessions = svc.sessions
    ∧ runHandler (⟨line, true, false, Obs.shutdownCase, p⟩ :: rest) ended
        = ("", HandlerEnd.returned) := by
  refine ⟨rfl, rfl, Nat.min_le_right _ _, ?_, rfl, ?_⟩
  · cases fuel <;> simp [acceptLoop, stopService]
  · simp [runHandler]

/-- C8 counterexample: the first run of Stop's broadcast path closes the
channel, and running it again faults — close of an already-closed channel
panics; there is no once-guard, so the operation is not
idempotence-protected. -/
theorem c8_counterexample :
    stopBroadcast ChanState.opened = Except.ok ChanState.closedSt
    ∧ stopBroadcast ChanState.closedSt = Except.error "close of closed channel" :=
  ⟨rfl, rfl⟩

/-- C8 amended: a successful broadcast happens only from the open state
and leaves the channel closed — so within one channel lifetime it can
succeed at most once and the raised signal is irreversible — and invoking
the unguarded broadcast path again from the resulting state faults rather
than being safe. -/
theorem c8_broadcast_single_shot (st st' : ChanState)
    (h : stopBroadcast st = Except.ok st') :
    st = ChanState.opened ∧ st' = ChanState.closedSt
    ∧ stopBroadcast st' = Except.error "close of closed channel" := by
  cases st with
  | opened =>
      simp only [stopBroadcast, closeChan, Except.ok.injEq] at h
      subst h
      exact ⟨rfl, rfl, rfl⟩
  | closedSt =>
      exact absurd h (by simp [stopBroadcast, closeChan])

/-- Witness for c8_broadcast_single_shot at the open channel. -/
theorem c8_broadcast_single_shot_witness :
    ChanState.opened = ChanState.opened ∧ ChanState.closedSt = ChanState.closedSt
    ∧ stopBroadcast ChanState.closedSt = Except.error "close of closed channel" :=
  c8_broadcast_single_shot ChanState.opened ChanState.closedSt rfl

/-- C9: the client's reader matches the marker lines purely textually:
whatever lines precede them, the first line equal to "EOF\n" ends the read
(later lines are dropped from the client's view), and the first line equal
to "TERMINATE\n" exits the client process with status 9 — even when those
lines are part of a command's own stdout. -/
theorem c9_markers_matched_textually (pre post : List String)
    (h1 : eofMarkerLine ∉ pre) (h2 : terminateMarker ∉ pre) :
    ReceiveResponse (pre ++ eofMarkerLine :: post) = (pre, RecvEnd.eofMarkerSeen)
    ∧ ReceiveResponse (pre ++ terminateMarker :: post)
        = (pre, RecvEnd.exitWithStatus 9) := by
  induction pre with
  | nil =>
      have hne : terminateMarker ≠ eofMarkerLine := by decide
      exact ⟨by simp [ReceiveResponse], by simp [ReceiveResponse, hne]⟩
  | cons l pre ih =>
      have e1 : l ≠ eofMarkerLine := by
        intro h; exact h1 (by simp [h])
      have e2 : l ≠ terminateMarker := by
        intro h; exact h2 (by simp [h])
      have h1r : eofMarkerLine ∉ pre := fun h => h1 (List.mem_cons_of_mem l h)
      have h2r : terminateMarker ∉ pre := fun h => h2 (List.mem_cons_of_mem l h)
      obtain ⟨ihA, ihB⟩ := ih h1r h2r
      constructor
      · simp [ReceiveResponse, e1, e2, ihA]
      · simp [ReceiveResponse, e1, e2, ihB]

/-- Witness for c9_markers_matched_textually: a response whose first line
is ordinary output, with a line after the marker that is dropped. -/
theorem c9_markers_matched_textually_witness :
    ReceiveResponse (["hello\n"] ++ eofMarkerLine :: ["late\n"])
        = (["hello\n"], RecvEnd.eofMarkerSeen)
    ∧ ReceiveResponse (["hello\n"] ++ terminateMarker :: ["late\n"])
        = (["hello\n"], RecvEnd.exitWithStatus 9) :=
  c9_markers_matched_textually ["hello\n"] ["late\n"] (by decide) (by decide)

/-- C10: right after Start launches the loops, main changes the working
directory to the root: when Chdir succeeds the resulting process state has
the loops started and cwd "/", so every command invocation (which inherits
the process working directory) executes in "/" whatever directory the
server was launched from; when Chdir fails, startup aborts. -/
theorem c10_chdir_root (cwd0 : String) :
    serverStartup cwd0 false = Except.ok { loopsStarted := true, cwd := "/" }
    ∧ Except.map invocationCwd (serverStartup cwd0 false) = Except.ok "/"
    ∧ serverStartup cwd0 true = Except.error "Error changing working directory" :=
  ⟨rfl, rfl, rfl⟩
